import Mathlib

/-!
Verification development for the bedtime-stories generation pipeline
(backend/app): story generator, TTS chunking, audio assembler, metadata
store and the orchestrator in `main.py`. Python values parsed from JSON
are modelled by `PyJson`; Python floats are modelled by `Rat` (no float
arithmetic is performed anywhere in the modelled code paths); machine
strings by `String`; raised exceptions by `Except String` or by an
explicit error component threaded through the state.
-/

namespace Bedtime

/-- A value produced by Python `json.loads`: `null`, booleans, integers,
strings, lists and dicts. (JSON floats are irrelevant to every modelled
code path and are omitted.) -/
inductive PyJson where
  | null : PyJson
  | bool : Bool → PyJson
  | int : Int → PyJson
  | str : String → PyJson
  | arr : List PyJson → PyJson
  | obj : List (String × PyJson) → PyJson

/-- Python `dict.get(key, default)` on a parsed-JSON dict (first binding wins;
dicts produced by `json.loads` have unique keys). -/
def py_dict_get (kvs : List (String × PyJson)) (key : String) (dflt : PyJson) : PyJson :=
  match kvs with
  | [] => dflt
  | (k, v) :: rest => if k == key then v else py_dict_get rest key dflt

mutual

/-- Python `str()` rendering of a parsed-JSON value (used only for the
`str(story_content)` default in story_generator.py line 105; its exact
formatting is irrelevant to every claim). -/
def pyStr : PyJson → String
  | PyJson.null => "None"
  | PyJson.bool b => if b then "True" else "False"
  | PyJson.int n => toString n
  | PyJson.str s => "\x27" ++ s ++ "\x27"
  | PyJson.arr xs => "[" ++ pyStrList xs ++ "]"
  | PyJson.obj kvs => "\x7b" ++ pyStrFields kvs ++ "\x7d"

def pyStrList : List PyJson → String
  | [] => ""
  | [x] => pyStr x
  | x :: rest => pyStr x ++ ", " ++ pyStrList rest

def pyStrFields : List (String × PyJson) → String
  | [] => ""
  | [(k, v)] => "\x27" ++ k ++ "\x27: " ++ pyStr v
  | (k, v) :: rest => "\x27" ++ k ++ "\x27: " ++ pyStr v ++ ", " ++ pyStrFields rest

end

/-- Python `s.replace(pat, "", 1)`: remove the first occurrence of `pat`. -/
def replaceFirst (s pat : String) : String :=
  match s.splitOn pat with
  | [] => s
  | [p] => p
  | p :: rest => p ++ String.intercalate pat rest

/-- story_generator.py lines 93-98: `text = response.text.strip()` followed by
removal of markdown code fences (` ```json ` / ` ``` `) the model may have
emitted despite the JSON mime type. Python `str.strip()` is modelled by
`String.trim` (both remove leading/trailing whitespace). -/
def cleanResponse (raw : String) : String :=
  let text := raw.trim
  if text.startsWith "```json" then
    (replaceFirst (replaceFirst text "```json") "```").trim
  else if text.startsWith "```" then
    (replaceFirst (replaceFirst text "```") "```").trim
  else text

/-- One chapter dict `{"title": ..., "text": ...}` as built by
story_generator.py. The `title` is always one of the literals written by the
source; the `text` is whatever Python value `dict.get` produced. -/
structure Chapter where
  title : String
  text : PyJson

/-- The dict returned by `generate_full_story`:
`{"title": ..., "synopsis": ..., "chapters": [...]}`. `title`/`synopsis` carry
parsed-JSON values (`data.get` may return any JSON value; no validation is
performed by the source). -/
structure StoryPayload where
  title : PyJson
  synopsis : PyJson
  chapters : List Chapter

/-- External-world outcomes consumed by the story generator:
`singleResponse` is the outcome of `client.models.generate_content(...)` in
`_generate_single_pass` (`Except.error` = the call raised, `Except.ok raw` =
`response.text` was the string `raw`); `loads` is Python `json.loads`
(stdlib), returning the parsed value or the raised message. -/
structure GenEnv where
  singleResponse : Except String String
  loads : String → Except String PyJson

/-- story_generator.py lines 115-119: the payload returned from the
`except` branch of `_generate_single_pass` when the response could not be
parsed into the expected JSON object. -/
def fallbackPayload (text : String) : StoryPayload :=
  { title := PyJson.str "Anomalie im Labor"
  , synopsis := PyJson.str "Die Geschichte konnte nicht korrekt formatiert werden."
  , chapters := [{ title := "Text", text := PyJson.str text }] }

/-- story_generator.py lines 100-119: `json.loads` plus payload assembly.
A parse failure raises inside the `try` (line 101); `data.get` on a parsed
value that is not a dict raises `AttributeError` (also inside the `try`);
both land in the `except` branch returning `fallbackPayload`. On a dict,
`full_text` is extracted with default `""`; if it is itself a dict (recursive
LLM error, line 104) its own `full_text` is taken with default
`str(story_content)`. -/
def parse_story_payload (loads : String → Except String PyJson) (text : String) : StoryPayload :=
  match loads text with
  | Except.ok (PyJson.obj kvs) =>
      let story_content := py_dict_get kvs "full_text" (PyJson.str "")
      let story_content :=
        match story_content with
        | PyJson.obj inner => py_dict_get inner "full_text" (PyJson.str (pyStr (PyJson.obj inner)))
        | v => v
      { title := py_dict_get kvs "title" (PyJson.str "Eine neue Geschichte")
      , synopsis := py_dict_get kvs "synopsis" (PyJson.str "Kurzgeschichte")
      , chapters := [{ title := "Geschichte", text := story_content }] }
  | Except.ok _ => fallbackPayload text
  | Except.error _ => fallbackPayload text

/-- A progress event `(status_type, message)` passed to the `on_progress`
callback (all calls made by the story generator pass no percentage). -/
abbrev ProgressEvent := String × String

/-- story_generator.py lines 56-119 (`_generate_single_pass`): emits one
progress event (line 80), then performs the provider call (line 83, outside
any `try`: a raise propagates), then cleans and parses the response text.
The `master_prompt` built on lines 63-77 is only sent to the external
provider, whose outcome `env.singleResponse` already reflects it. -/
def generate_single_pass (env : GenEnv) (_prompt _genre : String) (style : String)
    (_characters : Option (List String)) (target_minutes : Int) :
    List ProgressEvent × Except String StoryPayload :=
  let events : List ProgressEvent :=
    [("generating_text", "Schreibe \x27" ++ style ++ "\x27-Geschichte (" ++ toString target_minutes ++ " Min)...")]
  match env.singleResponse with
  | Except.error e => (events, Except.error e)
  | Except.ok raw => (events, Except.ok (parse_story_payload env.loads (cleanResponse raw)))

/-- story_generator.py lines 122-218 (`_generate_multi_pass`): after the
planning progress event (lines 133-134), the `try` block at line 153
evaluates `asyncio.to_thread`. The module imports `asyncio` (and `json`)
only locally inside `_generate_single_pass` (lines 82, 90), so the
module-level name `asyncio` is unbound here: a `NameError` is raised
immediately, caught by `except Exception` (line 171), which falls back to
`_generate_single_pass` (line 175). The outline call and the iterative
writing loop are therefore unreachable, and the fallback is taken for every
environment. -/
def generate_multi_pass (env : GenEnv) (prompt genre style : String)
    (characters : Option (List String)) (target_minutes : Int) :
    List ProgressEvent × Except String StoryPayload :=
  let num_segments : Int := max 4 (Int.fdiv target_minutes 5)
  let planEvent : ProgressEvent :=
    ("generating_text", "Plane \x27" ++ style ++ "\x27-Epos (" ++ toString target_minutes
      ++ " Min, " ++ toString num_segments ++ " Akte)...")
  let single := generate_single_pass env prompt genre style characters target_minutes
  (planEvent :: single.1, single.2)

/-- story_generator.py lines 36-53 (`generate_full_story`): single-pass for
`target_minutes <= 12`, multi-pass otherwise. -/
def generate_full_story (env : GenEnv) (prompt genre style : String)
    (characters : Option (List String)) (target_minutes : Int) :
    List ProgressEvent × Except String StoryPayload :=
  if target_minutes ≤ 12 then
    generate_single_pass env prompt genre style characters target_minutes
  else
    generate_multi_pass env prompt genre style characters target_minutes

/-- Zero-padding used by Python `f"chapter_{i+1:02d}"`. -/
def pad2 (n : Nat) : String :=
  if n < 10 then "0" ++ toString n else toString n

/-- tts_service.py lines 191-231 (`chapters_to_audio`): one positionally
named MP3 chunk per chapter, in order. The per-chunk synthesis calls are
external; this is the chunk-name skeleton the loop produces when they all
succeed. -/
def chapters_to_audio (chapters : List Chapter) : List String :=
  chapters.enum.map (fun p => "chapter_" ++ pad2 (p.1 + 1) ++ ".mp3")

/-- tts_service.py lines 214-219: the progress events emitted by the
`chapters_to_audio` loop (no percentage is passed). -/
def tts_progress_events (chapters : List Chapter) : List ProgressEvent :=
  chapters.enum.map
    (fun p => ("tts", "Vertone Kapitel " ++ toString (p.1 + 1) ++ "/"
      ++ toString chapters.length ++ ": " ++ p.2.title))

/-! ## Audio assembler (audio_processor.py) -/

/-- The plan computed by `merge_audio_files`: either normalize the single
input file directly (audio_processor.py lines 53-56), or concatenate the
given ordered play-list and then normalize (lines 58-111). The play-list
holds the paths written to the FFmpeg concat file, with the one generated
silence clip reused by reference for every gap. -/
inductive MergePlan where
  | single : String → MergePlan
  | concat : List String → MergePlan

/-- The path of the single silence clip generated once per merge
(audio_processor.py lines 61-62) and reused for every gap. -/
def silenceClip : String := "silence.mp3"

/-- audio_processor.py lines 78-86: the chapter portion of the concat list.
After each chapter except the last a silence gap is inserted; after the last
chapter a silence gap is inserted only when an outro follows. -/
def chapter_lines (outroPresent : Bool) : List String → List String
  | [] => []
  | [af] => af :: (if outroPresent then [silenceClip] else [])
  | af :: rest => af :: silenceClip :: chapter_lines outroPresent rest

/-- audio_processor.py lines 64-91: the ordered FFmpeg concat play-list.
`fs` models `Path.exists`; an intro/outro/title entry is included only when
the argument is not `None` and the file exists (`if p and p.exists()`). -/
def build_playlist (fs : String → Bool) (audio_files : List String)
    (intro_path outro_path title_path : Option String) : List String :=
  let present : Option String → Bool := fun o =>
    match o with
    | some p => fs p
    | none => false
  let introLines := match intro_path with
    | some p => if fs p then [p, silenceClip] else []
    | none => []
  let titleLines := match title_path with
    | some p => if fs p then [p, silenceClip] else []
    | none => []
  let outroLines := match outro_path with
    | some p => if fs p then [p] else []
    | none => []
  introLines ++ titleLines ++ chapter_lines (present outro_path) audio_files ++ outroLines

/-- audio_processor.py lines 29-112 (`merge_audio_files`): raises
`ValueError("No audio files provided")` on an empty segment list (lines
50-51) before creating any output; normalizes the single file directly when
exactly one segment is given (lines 53-56); otherwise builds the concat
play-list and concatenates then normalizes. The subprocess invocations
(ffmpeg/ffprobe) are external; the returned plan is what they are asked to
perform. -/
def merge_audio_files (fs : String → Bool) (audio_files : List String)
    (intro_path outro_path title_path : Option String) :
    Except String MergePlan :=
  match audio_files with
  | [] => Except.error "No audio files provided"
  | [af] => Except.ok (MergePlan.single af)
  | files => Except.ok (MergePlan.concat (build_playlist fs files intro_path outro_path title_path))

/-! ## Story metadata model and store (models.py, store.py) -/

/-- models.py lines 54-69 (`StoryMeta`), with exactly the declared fields in
their declared order. `title`/`description` are declared `str` but Pydantic
performs no validation on attribute assignment and `_run_pipeline` assigns
parsed-JSON values to them, so they are modelled with the runtime value type
`PyJson`. Floats are modelled by `Rat`; `created_at` by a numeric
timestamp. -/
structure StoryMeta where
  id : String
  title : PyJson
  description : PyJson
  prompt : String
  genre : Option String
  style : String
  voice_key : String
  voice_name : Option String
  duration_seconds : Option Rat
  chapter_count : Int
  is_on_spotify : Bool
  image_url : Option String
  status : String
  progress : Option String
  created_at : Nat

/-- The names of the fields declared by `StoryMeta` (models.py lines 54-69).
Pydantic v2 `BaseModel.__setattr__` raises
`ValueError('"StoryMeta" object has no field "<name>"')` when assigning an
attribute not in this list (the model does not set `extra="allow"`), so this
list decides which attribute assignments in `main.py` succeed. -/
def storyMetaFields : List String :=
  ["id", "title", "description", "prompt", "genre", "style", "voice_key",
   "voice_name", "duration_seconds", "chapter_count", "is_on_spotify",
   "image_url", "status", "progress", "created_at"]

/-- The message of the `ValueError` Pydantic raises on assignment to an
undeclared field. -/
def noFieldMsg (f : String) : String :=
  "\"StoryMeta\" object has no field \"" ++ f ++ "\""

/-- The in-memory dict `self._stories` of `StoryStore` (store.py line 17):
an insertion-ordered association list with unique keys, as a Python dict.
The JSON file backing it is rewritten on every mutation with all write
errors swallowed (store.py lines 35-49), so disk state never affects the
operations below. -/
abbrev StoryStore := List (String × StoryMeta)

/-- store.py lines 59-61 (`get_by_id`): dict lookup. -/
def get_by_id (s : StoryStore) (story_id : String) : Option StoryMeta :=
  match s with
  | [] => none
  | (k, v) :: rest => if k == story_id then some v else get_by_id rest story_id

/-- store.py lines 63-66 (`add_story`): dict assignment
`self._stories[story.id] = story` (replace in place if the key is present,
append otherwise), then a best-effort disk save. -/
def add_story (s : StoryStore) (story : StoryMeta) : StoryStore :=
  match s with
  | [] => [(story.id, story)]
  | (k, v) :: rest =>
      if k == story.id then (story.id, story) :: rest else (k, v) :: add_story rest story

/-- Python `del self._stories[story_id]`: remove the (unique) binding. -/
def dict_del (s : StoryStore) (story_id : String) : StoryStore :=
  match s with
  | [] => []
  | (k, v) :: rest => if k == story_id then rest else (k, v) :: dict_del rest story_id

/-- store.py lines 76-82 (`delete_story`): delete the binding and return
`true` if the key is present, otherwise return `false` without changes. -/
def delete_story (s : StoryStore) (story_id : String) : Bool × StoryStore :=
  if (get_by_id s story_id).isSome then (true, dict_del s story_id) else (false, s)

/-! ## Orchestrator (main.py `_run_pipeline` and `on_progress`)

The run mutates two shared objects: the per-story entry of the in-memory
`_generation_status` dict, and the `StoryMeta` record held by the store for
this `story_id` (created at line 212 and aliased by every
`store.get_by_id(story_id)`, so an attribute assignment mutates the stored
record immediately, before and independently of `store.add_story`, whose
in-memory effect on the aliased object is a no-op and whose disk save
swallows all errors). No concurrent deletion of the record is modelled, so
the `if curr:` guards always take the present branch. Python exception flow
is modelled by `RunState × Option String`: `some e` means an exception with
message `e` is propagating, with all mutations made before the raise kept in
the state. -/

/-- The `_generation_status[story_id]` dict entry (main.py lines 120-124,
215-218, 240): a plain dict, whose updates cannot fail. -/
structure GenStatus where
  status : String
  progress : String
  progress_pct : Option Int
  title : Option PyJson

/-- The mutable state of one orchestrator run, plus instrumentation
recording which pipeline points were reached: `statusWrites` lists every
value assigned to the record's `status` field in order, and the `*Invoked` /
`finalizeReached` flags mark arrival at the TTS, merge and image stages and
at the finalize block. -/
structure RunState where
  gen : GenStatus
  meta : StoryMeta
  statusWrites : List String
  ttsInvoked : Bool
  mergeInvoked : Bool
  imageInvoked : Bool
  finalizeReached : Bool

/-- Sequencing with Python exception semantics: a propagating exception
skips the continuation but keeps the state reached so far. -/
def pstep (r : RunState × Option String) (f : RunState → RunState × Option String) :
    RunState × Option String :=
  match r with
  | (st, none) => f st
  | (st, some e) => (st, some e)

/-- Assign the record's `status` field and append the written value to the
instrumentation trace (`status` is a declared field, models.py line 67). -/
def writeStatus (v : String) (st : RunState) : RunState :=
  { gen := st.gen
  , meta := { st.meta with status := v }
  , statusWrites := st.statusWrites ++ [v]
  , ttsInvoked := st.ttsInvoked
  , mergeInvoked := st.mergeInvoked
  , imageInvoked := st.imageInvoked
  , finalizeReached := st.finalizeReached }

/-- Pydantic attribute assignment on the run's `StoryMeta` record: succeeds
and applies the update when `field` is declared by the model, raises
`ValueError` (keeping the state) otherwise. Every `curr.<field> = ...` /
`story_meta.<field> = ...` statement of main.py is embedded as one `trySet`
whose update performs exactly that assignment. -/
def trySet (field : String) (upd : RunState → RunState) (st : RunState) :
    RunState × Option String :=
  if storyMetaFields.contains field then (upd st, none)
  else (st, some (noFieldMsg field))

/-- main.py lines 214-227 (`on_progress`): update the ephemeral status dict
(the percentage key only when a percentage is given), then mutate the stored
record: `status` becomes `"generating"` unless the passed type is itself
terminal, `progress` becomes the message, and — only when a percentage is
given — `progress_pct` is assigned, which raises because `StoryMeta`
declares no such field (models.py lines 54-69). The trailing
`store.add_story(curr)` (line 227) is a no-op on the aliased in-memory
record plus a best-effort disk save. -/
def on_progress (st : RunState) (status_type message : String) (pct : Option Int) :
    RunState × Option String :=
  let st := { st with gen := { st.gen with
                status := status_type
              , progress := message
              , progress_pct := match pct with
                  | some p => some p
                  | none => st.gen.progress_pct } }
  let newStatus := if status_type != "done" && status_type != "error" then "generating" else status_type
  pstep (trySet "status" (writeStatus newStatus) st) (fun st =>
  pstep (trySet "progress"
      (fun st => { st with meta := { st.meta with progress := some message } }) st) (fun st =>
  match pct with
  | some _ => trySet "progress_pct" (fun st => st) st
  | none => (st, none)))

/-- Apply a list of progress events through `on_progress`, each with no
percentage (the form used by the story generator and the TTS loop). -/
def apply_events (st : RunState) : List ProgressEvent → RunState × Option String
  | [] => (st, none)
  | (t, m) :: rest => pstep (on_progress st t m none) (fun st => apply_events st rest)

/-- The arguments of `_run_pipeline` (main.py lines 172-181) together with
the `settings.BASE_URL` configuration value it reads. -/
structure PipelineArgs where
  story_id : String
  prompt : String
  genre : String
  style : String
  characters : Option (List String)
  target_minutes : Int
  voice_key : String
  speech_rate : String
  original_prompt : Option String
  base_url : String

/-- External-world outcomes consumed by one pipeline run beyond the story
generator: the per-chapter TTS loop, the title TTS call, the ffmpeg
concat/normalize subprocesses, the ffprobe duration probe, the image
backend (`Except.ok none` = `generate_story_image` returned `None`;
`Except.error` = the call raised, additionally guarded by the pipeline's own
`try`), and the filesystem predicate used by the assembler. -/
structure PipelineEnv where
  gen : GenEnv
  ttsOutcome : Except String Unit
  titleTtsOutcome : Except String Unit
  mergeOutcome : Except String Unit
  durationOutcome : Except String Rat
  imageOutcome : Except String (Option Unit)
  fileExists : String → Bool

/-- main.py lines 294-303: the image stage sets `image_url` only on a
successful generation; a `None` result or a raised exception is logged and
leaves it `None` (the stage itself never raises outward). -/
def image_url_of (res : Except String (Option Unit)) (base story_id : String) : Option String :=
  match res with
  | Except.ok (some _) => some (base ++ "/api/stories/" ++ story_id ++ "/image.png")
  | Except.ok none => none
  | Except.error _ => none

/-- main.py line 306: `"\n".join([c["text"] for c in story_data["chapters"]])`.
`str.join` raises `TypeError` when an item is not a string. -/
def join_texts (chapters : List Chapter) : Except String String :=
  match chapters.mapM (fun c => match c.text with
      | PyJson.str s => some s
      | _ => none) with
  | some texts => Except.ok (String.intercalate "\n" texts)
  | none => Except.error "sequence item: expected str instance"

/-- main.py line 307: `len(total_text.split())` — the number of
whitespace-delimited tokens (Python `str.split()` with no argument splits on
whitespace runs and drops empty tokens). -/
def py_split_count (s : String) : Nat :=
  ((s.split (fun c => c.isWhitespace)).filter (fun t => t != "")).length

/-- tts_service.py lines 11-32 as surfaced by `get_available_voices`:
`(key, name)` pairs, in registration order. -/
def available_voices : List (String × String) :=
  [("seraphina", "Seraphina"), ("florian", "Florian"),
   ("eliza", "Eliza"), ("percy", "Percy"),
   ("shimmer", "Shimmer"), ("onyx", "Onyx"), ("alloy", "Alloy"),
   ("echo", "Echo"), ("fable", "Fable"), ("nova", "Nova")]

/-- main.py lines 187-193: resolve the display name of the requested voice,
defaulting to "Unbekannt". -/
def resolve_voice_name (voice_key : String) : String :=
  match available_voices.find? (fun p => p.1 == voice_key) with
  | some p => p.2
  | none => "Unbekannt"

/-- main.py lines 196-211: the initial `StoryMeta` record created with
`status="generating"` before the `try` block. All constructor arguments are
declared fields, so creation succeeds. -/
def initial_meta (a : PipelineArgs) (now : Nat) : StoryMeta :=
  { id := a.story_id
  , title := PyJson.str ("Schreibe \x27" ++ a.style ++ "\x27-Geschichte ("
      ++ toString a.target_minutes ++ " Min)...")
  , description := PyJson.str ("Idee: " ++ (a.original_prompt.getD a.prompt).take 100 ++ "...")
  , prompt := a.original_prompt.getD a.prompt
  , genre := some a.genre
  , style := a.style
  , voice_key := a.voice_key
  , voice_name := some (resolve_voice_name a.voice_key)
  , duration_seconds := some 0
  , chapter_count := 0
  , is_on_spotify := false
  , image_url := none
  , status := "generating"
  , progress := some "Starte Generierung..."
  , created_at := now }

/-- main.py lines 229-322: the `try` block of `_run_pipeline`, stage by
stage in source order. The `on_progress` call at line 257 passes a
percentage and therefore raises (see `on_progress`); everything below it is
unreachable but embedded faithfully. Filesystem writes of artifacts
(story.json, chunk files) have no effect on the modelled state. -/
def try_block (env : PipelineEnv) (a : PipelineArgs) (st : RunState) :
    RunState × Option String :=
  let full := generate_full_story env.gen a.prompt a.genre a.style a.characters a.target_minutes
  pstep (apply_events st full.1) (fun st =>
  match full.2 with
  | Except.error e => (st, some e)
  | Except.ok story_data =>
    -- line 240: ephemeral title update
    let st := { st with gen := { st.gen with title := some story_data.title } }
    -- lines 243-247: title/synopsis store update ("synopsis" is always a key
    -- of the payload dict, so the `story_data.get` default never fires)
    pstep (trySet "title"
        (fun st => { st with meta := { st.meta with title := story_data.title } }) st) (fun st =>
    pstep (trySet "description"
        (fun st => { st with meta := { st.meta with description := story_data.synopsis } }) st) (fun st =>
    -- line 257
    pstep (on_progress st "generating_audio" "Bereite Vertonung vor..." (some 30)) (fun st =>
    -- Step 2, lines 258-265: chapters_to_audio
    let st := { st with ttsInvoked := true }
    pstep (apply_events st (tts_progress_events story_data.chapters)) (fun st =>
    match env.ttsOutcome with
    | Except.error e => (st, some e)
    | Except.ok _ =>
      let audio_files := chapters_to_audio story_data.chapters
      -- Step 2.5, lines 267-275: title TTS
      pstep (on_progress st "generating_audio" "Vertone Titel..." (some 80)) (fun st =>
      match env.titleTtsOutcome with
      | Except.error e => (st, some e)
      | Except.ok _ =>
        -- Step 4, lines 277-286: merge and post-process
        pstep (on_progress st "processing" "Mische Audio-Spuren und optimiere Klang..." (some 85)) (fun st =>
        let st := { st with mergeInvoked := true }
        match merge_audio_files env.fileExists audio_files
            (some "Intro.mp3") (some "Outro.mp3") (some "title.mp3") with
        | Except.error e => (st, some e)
        | Except.ok _plan =>
          match env.mergeOutcome with
          | Except.error e => (st, some e)
          | Except.ok _ =>
            -- Step 5, line 289: final duration
            match env.durationOutcome with
            | Except.error e => (st, some e)
            | Except.ok duration =>
              -- Step 3.5, lines 291-303: image generation (non-fatal)
              pstep (on_progress st "processing" "Generiere Titelbild..." (some 95)) (fun st =>
              let st := { st with imageInvoked := true }
              let image_url := image_url_of env.imageOutcome a.base_url a.story_id
              -- lines 305-307: word count
              match join_texts story_data.chapters with
              | Except.error e => (st, some e)
              | Except.ok total_text =>
                let _word_count := py_split_count total_text
                -- Step 4, lines 309-322: finalize metadata (field by field,
                -- in source order; `word_count` and `progress_pct` are not
                -- declared by StoryMeta, so their assignments raise and the
                -- assigned values are discarded)
                let st := { st with finalizeReached := true }
                pstep (trySet "title"
                    (fun st => { st with meta := { st.meta with title := story_data.title } }) st) (fun st =>
                pstep (trySet "description"
                    (fun st => { st with meta := { st.meta with description := story_data.synopsis } }) st) (fun st =>
                pstep (trySet "duration_seconds"
                    (fun st => { st with meta := { st.meta with duration_seconds := some duration } }) st) (fun st =>
                pstep (trySet "chapter_count"
                    (fun st => { st with meta := { st.meta with chapter_count := Int.ofNat story_data.chapters.length } }) st) (fun st =>
                pstep (trySet "word_count" (fun st => st) st) (fun st =>
                pstep (trySet "image_url"
                    (fun st => { st with meta := { st.meta with image_url := image_url } }) st) (fun st =>
                pstep (trySet "voice_name"
                    (fun st => { st with meta := { st.meta with voice_name := some (resolve_voice_name a.voice_key) } }) st) (fun st =>
                pstep (trySet "status" (writeStatus "done") st) (fun st =>
                pstep (trySet "progress"
                    (fun st => { st with meta := { st.meta with progress := some "Fertig! Geschichte bereit zum Anhören." } }) st) (fun st =>
                pstep (trySet "progress_pct" (fun st => st) st) (fun st =>
                -- line 322: store.add_story (in-memory no-op, disk save)
                (st, none)))))))))))))))))))

/-- The run state right after the ephemeral status entry is created by the
endpoint (main.py lines 120-124) and the initial record is stored (lines
196-212): ephemeral status `"starting"`, record status `"generating"`
(recorded as the first status write), no stage reached yet. -/
def init_state (a : PipelineArgs) (now : Nat) : RunState :=
  { gen := { status := "starting", progress := "Starte Generierung...",
             progress_pct := none, title := none }
  , meta := initial_meta a now
  , statusWrites := ["generating"]
  , ttsInvoked := false
  , mergeInvoked := false
  , imageInvoked := false
  , finalizeReached := false }

/-- main.py lines 172-334 (`_run_pipeline`): start from `init_state`, run
the `try` block, and on a propagating exception run the `except` handler
(lines 324-334), which sets the ephemeral and stored status to `"error"`
with a human-readable message. The handler assigns only declared fields, so
no exception escapes the run. -/
def run_pipeline (env : PipelineEnv) (a : PipelineArgs) (now : Nat) :
    RunState × Option String :=
  match try_block env a (init_state a now) with
  | (st, none) => (st, none)
  | (st, some e) =>
      let st := { st with gen := { st.gen with status := "error", progress := "Fehler: " ++ e } }
      pstep (trySet "status" (writeStatus "error") st) (fun st =>
      pstep (trySet "progress"
          (fun st => { st with meta := { st.meta with progress := some ("Fehler: " ++ e) } }) st) (fun st =>
      (st, none)))

/-! ## Concrete sample values (used to instantiate hypotheses in witnesses) -/

/-- A concrete `StoryMeta` record. -/
def sampleMeta : StoryMeta :=
  { id := "a", title := PyJson.str "t", description := PyJson.str "d"
  , prompt := "p", genre := some "g", style := "s", voice_key := "v"
  , voice_name := some "n", duration_seconds := some 0, chapter_count := 0
  , is_on_spotify := false, image_url := none, status := "done"
  , progress := none, created_at := 0 }

/-- A generator environment whose provider returns the non-JSON text `"x"`,
on which `json.loads` raises. -/
def sampleGenEnv : GenEnv :=
  { singleResponse := Except.ok "x"
  , loads := fun _ => Except.error "Expecting value: line 1 column 1 (char 0)" }

/-- A generator environment whose provider returns the non-JSON prose
`"Es war einmal"`, on which `json.loads` raises. -/
def proseGenEnv : GenEnv :=
  { singleResponse := Except.ok "Es war einmal"
  , loads := fun _ => Except.error "Expecting value: line 1 column 1 (char 0)" }

/-- A pipeline environment in which every external stage succeeds. -/
def samplePipelineEnv : PipelineEnv :=
  { gen := sampleGenEnv
  , ttsOutcome := Except.ok ()
  , titleTtsOutcome := Except.ok ()
  , mergeOutcome := Except.ok ()
  , durationOutcome := Except.ok 0
  , imageOutcome := Except.ok none
  , fileExists := fun _ => true }

/-- Concrete request arguments (the end-to-end scenario request). -/
def sampleArgs : PipelineArgs :=
  { story_id := "sid", prompt := "ein Toaster", genre := "Sci-Fi", style := "X"
  , characters := none, target_minutes := 5, voice_key := "v1"
  , speech_rate := "-5%", original_prompt := none, base_url := "b" }

end Bedtime

namespace Bedtime

/-! ## Helper lemmas -/

theorem pstep_ok (st : RunState) (f : RunState → RunState × Option String) :
    pstep (st, none) f = f st := rfl

theorem pstep_err (st : RunState) (e : String) (f : RunState → RunState × Option String) :
    pstep (st, some e) f = (st, some e) := rfl

theorem pstep_eq_of_none (r : RunState × Option String) (f : RunState → RunState × Option String)
    (h : r.2 = none) : pstep r f = f r.1 := by
  obtain ⟨st, o⟩ := r
  cases o with
  | none => rfl
  | some e => simp at h

theorem trySet_status (u : RunState → RunState) (st : RunState) :
    trySet "status" u st = (u st, none) := rfl

theorem trySet_progress (u : RunState → RunState) (st : RunState) :
    trySet "progress" u st = (u st, none) := rfl

theorem trySet_title (u : RunState → RunState) (st : RunState) :
    trySet "title" u st = (u st, none) := rfl

theorem trySet_description (u : RunState → RunState) (st : RunState) :
    trySet "description" u st = (u st, none) := rfl

theorem trySet_word_count (u : RunState → RunState) (st : RunState) :
    trySet "word_count" u st = (st, some (noFieldMsg "word_count")) := rfl

theorem trySet_progress_pct (u : RunState → RunState) (st : RunState) :
    trySet "progress_pct" u st = (st, some (noFieldMsg "progress_pct")) := rfl

theorem get_by_id_eq_none_of_not_mem (s : StoryStore) (i : String)
    (h : i ∉ s.map Prod.fst) : get_by_id s i = none := by
  induction s with
  | nil => rfl
  | cons kv rest ih =>
      obtain ⟨k, v⟩ := kv
      simp only [List.map_cons, List.mem_cons, not_or] at h
      simp only [get_by_id]
      rw [if_neg (by simp only [beq_iff_eq]; exact Ne.symm h.1)]
      exact ih h.2

theorem get_by_id_add_story (s : StoryStore) (r : StoryMeta) :
    get_by_id (add_story s r) r.id = some r := by
  induction s with
  | nil => simp [add_story, get_by_id]
  | cons kv rest ih =>
      obtain ⟨k, v⟩ := kv
      simp only [add_story]
      by_cases h : k = r.id
      · rw [if_pos (by simp [h])]
        simp [get_by_id]
      · rw [if_neg (by simp [h])]
        simp only [get_by_id]
        rw [if_neg (by simp [h])]
        exact ih

theorem get_by_id_dict_del (s : StoryStore) (i : String)
    (h : (s.map Prod.fst).Nodup) : get_by_id (dict_del s i) i = none := by
  induction s with
  | nil => rfl
  | cons kv rest ih =>
      obtain ⟨k, v⟩ := kv
      simp only [List.map_cons, List.nodup_cons] at h
      simp only [dict_del]
      by_cases hk : k = i
      · rw [if_pos (by simp [hk])]
        exact get_by_id_eq_none_of_not_mem rest i (hk ▸ h.1)
      · rw [if_neg (by simp [hk])]
        simp only [get_by_id]
        rw [if_neg (by simp [hk])]
        exact ih h.2

/-- Claim C9: for every prior store state, `add_or_replace` (= `add_story`)
followed by `get_by_id` on the new record returns a record equal in all
fields, and `delete_story` followed by `get_by_id` on a store whose keys are
unique (the invariant every Python dict satisfies) returns absent. -/
theorem store_roundtrip (s : StoryStore) (r : StoryMeta) (i : String) :
    get_by_id (add_story s r) r.id = some r ∧
    ((s.map Prod.fst).Nodup → get_by_id (delete_story s i).2 i = none) := by
  refine ⟨get_by_id_add_story s r, fun h => ?_⟩
  unfold delete_story
  by_cases hp : (get_by_id s i).isSome
  · rw [if_pos hp]
    exact get_by_id_dict_del s i h
  · rw [if_neg hp]
    simpa using hp

/-- Witness for C9 at a concrete store: deleting the only record makes it
absent. -/
theorem store_roundtrip_witness :
    get_by_id (add_story [] sampleMeta) sampleMeta.id = some sampleMeta ∧
    get_by_id (delete_story [("a", sampleMeta)] "a").2 "a" = none := by
  refine ⟨(store_roundtrip [] sampleMeta "a").1, ?_⟩
  exact (store_roundtrip [("a", sampleMeta)] sampleMeta "a").2 (by simp)

/-- Claim C8: `merge_audio_files` on an empty segment list fails with the
invalid-input error (`ValueError("No audio files provided")`, raised before
any output is produced), for every combination of the optional
intro/outro/title arguments and every filesystem. -/
theorem merge_empty_segments_rejected (fs : String → Bool)
    (intro_path outro_path title_path : Option String) :
    merge_audio_files fs [] intro_path outro_path title_path
      = Except.error "No audio files provided" := rfl

/-- Counterexample to claim C4 as stated: with exactly one segment and an
intro, outro and title clip all supplied and existing, `merge_audio_files`
still takes the single-file shortcut — the result is the direct
normalization plan, not a concatenation containing the supplied items. -/
theorem merge_single_segment_ignores_extras_cex :
    merge_audio_files (fun _ => true) ["a.mp3"]
        (some "intro.mp3") (some "outro.mp3") (some "title.mp3")
      = Except.ok (MergePlan.single "a.mp3") := rfl

/-- Claim C4 as amended: the single-file shortcut is taken exactly when one
segment is given, regardless of intro/outro/title; with two or more segments
the full play-list is built and concatenated, and any supplied-and-existing
intro, title clip or outro appears in it. -/
theorem merge_single_iff_one_segment (fs : String → Bool)
    (intro_path outro_path title_path : Option String) :
    (∀ a, merge_audio_files fs [a] intro_path outro_path title_path
        = Except.ok (MergePlan.single a)) ∧
    (∀ a b rest, merge_audio_files fs (a :: b :: rest) intro_path outro_path title_path
        = Except.ok (MergePlan.concat (build_playlist fs (a :: b :: rest) intro_path outro_path title_path))) ∧
    (∀ p files, intro_path = some p → fs p = true →
        p ∈ build_playlist fs files intro_path outro_path title_path) ∧
    (∀ p files, title_path = some p → fs p = true →
        p ∈ build_playlist fs files intro_path outro_path title_path) ∧
    (∀ p files, outro_path = some p → fs p = true →
        p ∈ build_playlist fs files intro_path outro_path title_path) := by
  refine ⟨fun a => rfl, fun a b rest => rfl, ?_, ?_, ?_⟩
  · rintro p files rfl hfs
    simp [build_playlist, hfs]
  · rintro p files rfl hfs
    simp [build_playlist, hfs]
  · rintro p files rfl hfs
    simp [build_playlist, hfs]

/-- Witness for C4 (amended) at concrete inputs: two segments with intro,
outro and title all supplied and existing; all three appear in the built
play-list. -/
theorem merge_single_iff_one_segment_witness :
    (merge_audio_files (fun _ => true) ["a", "b"] (some "i") (some "o") (some "t")
      = Except.ok (MergePlan.concat (build_playlist (fun _ => true) ["a", "b"] (some "i") (some "o") (some "t")))) ∧
    "i" ∈ build_playlist (fun _ => true) ["a", "b"] (some "i") (some "o") (some "t") ∧
    "t" ∈ build_playlist (fun _ => true) ["a", "b"] (some "i") (some "o") (some "t") ∧
    "o" ∈ build_playlist (fun _ => true) ["a", "b"] (some "i") (some "o") (some "t") := by
  have h := merge_single_iff_one_segment (fun _ => true) (some "i") (some "o") (some "t")
  exact ⟨h.2.1 "a" "b" [], h.2.2.1 "i" ["a", "b"] rfl rfl,
         h.2.2.2.1 "t" ["a", "b"] rfl rfl, h.2.2.2.2 "o" ["a", "b"] rfl rfl⟩

/-- The story payload parser always yields exactly one chapter, in every
branch (the assembled dict on success, the fallback dict otherwise). -/
theorem parse_story_payload_one_chapter (loads : String → Except String PyJson)
    (text : String) : (parse_story_payload loads text).chapters.length = 1 := by
  unfold parse_story_payload
  cases h : loads text with
  | error e => rfl
  | ok j => cases j <;> rfl

/-- The result component of `_generate_single_pass`: the provider error when
the call raised, otherwise the parsed (or fallback) payload of the cleaned
response text. -/
theorem generate_single_pass_res (env : GenEnv) (prompt genre style : String)
    (characters : Option (List String)) (target_minutes : Int) :
    (generate_single_pass env prompt genre style characters target_minutes).2
      = match env.singleResponse with
        | Except.error e => Except.error e
        | Except.ok raw => Except.ok (parse_story_payload env.loads (cleanResponse raw)) := by
  unfold generate_single_pass
  cases env.singleResponse <;> rfl

/-- When the cleaned response does not parse to a JSON dict, the parser
returns the fallback payload (the `except` branch of lines 112-119). -/
theorem parse_story_payload_fallback (loads : String → Except String PyJson)
    (text : String) (hmal : ∀ kvs, loads text ≠ Except.ok (PyJson.obj kvs)) :
    parse_story_payload loads text = fallbackPayload text := by
  unfold parse_story_payload
  cases h : loads text with
  | error e => rfl
  | ok j =>
      cases j with
      | null => rfl
      | bool b => rfl
      | int n => rfl
      | str s => rfl
      | arr xs => rfl
      | obj kvs => exact absurd h (hmal kvs)

/-- Claim C6: for every request above the single-pass threshold
(`target_minutes > 12`), `generate_full_story` returns the single-pass
result. In the source the multi-pass `try` block raises `NameError` before
the outline call (module-level `asyncio` is unbound) and the same
`except Exception` that guards outline failure falls back to single-pass, so
in particular an outline failure or an empty segments list can never abort
the run. -/
theorem long_form_falls_back_to_single_pass (env : GenEnv)
    (prompt genre style : String) (characters : Option (List String))
    (target_minutes : Int) (h : 12 < target_minutes) :
    (generate_full_story env prompt genre style characters target_minutes).2
      = (generate_single_pass env prompt genre style characters target_minutes).2 := by
  unfold generate_full_story
  rw [if_neg (by omega)]
  rfl

/-- Witness for C6 at a concrete above-threshold request. -/
theorem long_form_falls_back_to_single_pass_witness :
    (12 : Int) < 20 ∧
    (generate_full_story sampleGenEnv "p" "Sci-Fi" "X" none 20).2
      = (generate_single_pass sampleGenEnv "p" "Sci-Fi" "X" none 20).2 :=
  ⟨by decide, long_form_falls_back_to_single_pass sampleGenEnv "p" "Sci-Fi" "X" none 20 (by decide)⟩

/-- Counterexample to claim C7 as stated: on the malformed provider response
`"Es war einmal"` (not JSON, so `json.loads` raises), `generate_full_story`
does not raise — it returns the fallback story payload titled
"Anomalie im Labor" carrying the raw text as its single chapter. -/
theorem malformed_response_no_raise_cex :
    (generate_full_story proseGenEnv "p" "Sci-Fi" "Douglas Adams" none 5).2
      = Except.ok (fallbackPayload (cleanResponse "Es war einmal")) := rfl

/-- Claim C7 as amended: when the provider call itself succeeds but its
response text is not parseable into the expected JSON object, content
generation does not raise; it returns the fallback payload (title
"Anomalie im Labor", the cleaned raw text as the single chapter). A
`BackendError`-style raise propagates out of `generate_full_story` only when
the provider call itself raises. -/
theorem malformed_response_returns_fallback (env : GenEnv)
    (prompt genre style : String) (characters : Option (List String))
    (target_minutes : Int) (raw : String)
    (hok : env.singleResponse = Except.ok raw)
    (hmal : ∀ kvs, env.loads (cleanResponse raw) ≠ Except.ok (PyJson.obj kvs)) :
    (generate_full_story env prompt genre style characters target_minutes).2
      = Except.ok (fallbackPayload (cleanResponse raw)) := by
  have hsingle : (generate_single_pass env prompt genre style characters target_minutes).2
      = Except.ok (fallbackPayload (cleanResponse raw)) := by
    rw [generate_single_pass_res, hok]
    show Except.ok (parse_story_payload env.loads (cleanResponse raw)) = _
    rw [parse_story_payload_fallback env.loads (cleanResponse raw) hmal]
  unfold generate_full_story
  by_cases h12 : target_minutes ≤ 12
  · rw [if_pos h12]
    exact hsingle
  · rw [if_neg h12]
    exact hsingle

/-- Witness for C7 (amended) at a concrete malformed response. -/
theorem malformed_response_returns_fallback_witness :
    (generate_full_story sampleGenEnv "p" "g" "s" none 5).2
      = Except.ok (fallbackPayload (cleanResponse "x")) :=
  malformed_response_returns_fallback sampleGenEnv "p" "g" "s" none 5 "x" rfl
    (fun _kvs h => Except.noConfusion h)

/-- Claim C10: every successful `generate_full_story` result — any provider
responses, any parameters, single- or multi-pass — has exactly one chapter,
and the per-chapter TTS loop over those chapters produces exactly one chunk
name. -/
theorem generated_story_single_chapter (env : GenEnv)
    (prompt genre style : String) (characters : Option (List String))
    (target_minutes : Int) (payload : StoryPayload)
    (h : (generate_full_story env prompt genre style characters target_minutes).2
      = Except.ok payload) :
    payload.chapters.length = 1 ∧ (chapters_to_audio payload.chapters).length = 1 := by
  have hlen : payload.chapters.length = 1 := by
    have hsingle : (generate_single_pass env prompt genre style characters target_minutes).2
        = Except.ok payload := by
      unfold generate_full_story at h
      by_cases h12 : target_minutes ≤ 12
      · rwa [if_pos h12] at h
      · rwa [if_neg h12] at h
    rw [generate_single_pass_res] at hsingle
    cases hr : env.singleResponse with
    | error e => rw [hr] at hsingle; exact absurd hsingle (by simp)
    | ok raw =>
        rw [hr] at hsingle
        simp only [Except.ok.injEq] at hsingle
        rw [← hsingle]
        exact parse_story_payload_one_chapter env.loads (cleanResponse raw)
  refine ⟨hlen, ?_⟩
  simp [chapters_to_audio, hlen]

/-- `on_progress` with no percentage and a non-terminal status type: no
exception, one `"generating"` status write, reached-stage flags unchanged. -/
theorem on_progress_none_eq (st : RunState) (t m : String)
    (h : (t != "done" && t != "error") = true) :
    on_progress st t m none =
      ({ gen := { status := t, progress := m, progress_pct := st.gen.progress_pct,
                  title := st.gen.title }
        , meta := { st.meta with status := "generating", progress := some m }
        , statusWrites := st.statusWrites ++ ["generating"]
        , ttsInvoked := st.ttsInvoked, mergeInvoked := st.mergeInvoked
        , imageInvoked := st.imageInvoked, finalizeReached := st.finalizeReached }, none) := by
  unfold on_progress
  simp only [h, if_true, trySet_status, trySet_progress, pstep_ok, writeStatus]

/-- `on_progress` with a percentage: the `progress_pct` assignment raises
`ValueError` after the `status` and `progress` mutations have been applied
(one `"generating"` status write when the status type is non-terminal). -/
theorem on_progress_some_eq (st : RunState) (t m : String) (p : Int)
    (h : (t != "done" && t != "error") = true) :
    on_progress st t m (some p) =
      ({ gen := { status := t, progress := m, progress_pct := some p,
                  title := st.gen.title }
        , meta := { st.meta with status := "generating", progress := some m }
        , statusWrites := st.statusWrites ++ ["generating"]
        , ttsInvoked := st.ttsInvoked, mergeInvoked := st.mergeInvoked
        , imageInvoked := st.imageInvoked, finalizeReached := st.finalizeReached },
       some (noFieldMsg "progress_pct")) := by
  unfold on_progress
  simp only [h, if_true, trySet_status, trySet_progress, trySet_progress_pct, pstep_ok,
    writeStatus]

/-- Folding non-terminal no-percentage events through `on_progress` never
raises, appends one `"generating"` status write per event, and leaves the
reached-stage flags unchanged. -/
theorem apply_events_spec (evs : List ProgressEvent) (st : RunState)
    (h : ∀ e ∈ evs, (e.1 != "done" && e.1 != "error") = true) :
    (apply_events st evs).2 = none ∧
    (apply_events st evs).1.statusWrites
      = st.statusWrites ++ List.replicate evs.length "generating" ∧
    (apply_events st evs).1.ttsInvoked = st.ttsInvoked ∧
    (apply_events st evs).1.mergeInvoked = st.mergeInvoked ∧
    (apply_events st evs).1.imageInvoked = st.imageInvoked ∧
    (apply_events st evs).1.finalizeReached = st.finalizeReached := by
  induction evs generalizing st with
  | nil => simp [apply_events]
  | cons e rest ih =>
      obtain ⟨t, m⟩ := e
      have ht : (t != "done" && t != "error") = true := h (t, m) (List.mem_cons_self _ _)
      have hrest : ∀ e ∈ rest, (e.1 != "done" && e.1 != "error") = true :=
        fun e he => h e (List.mem_cons_of_mem _ he)
      simp only [apply_events, on_progress_none_eq _ _ _ ht, pstep_ok]
      obtain ⟨h1, h2, h3, h4, h5, h6⟩ := ih _ hrest
      refine ⟨h1, ?_, by simpa using h3, by simpa using h4, by simpa using h5, by simpa using h6⟩
      rw [h2]
      simp [List.replicate_succ, List.append_assoc]

/-- The single event list emitted by `_generate_single_pass`. -/
theorem generate_single_pass_events (env : GenEnv) (prompt genre style : String)
    (characters : Option (List String)) (target_minutes : Int) :
    (generate_single_pass env prompt genre style characters target_minutes).1
      = [("generating_text", "Schreibe \x27" ++ style ++ "\x27-Geschichte ("
          ++ toString target_minutes ++ " Min)...")] := by
  unfold generate_single_pass
  cases env.singleResponse <;> rfl

/-- The event list emitted by `_generate_multi_pass`: the planning event
followed by the single-pass fallback events. -/
theorem generate_multi_pass_events (env : GenEnv) (prompt genre style : String)
    (characters : Option (List String)) (target_minutes : Int) :
    (generate_multi_pass env prompt genre style characters target_minutes).1
      = ("generating_text", "Plane \x27" ++ style ++ "\x27-Epos ("
          ++ toString target_minutes ++ " Min, "
          ++ toString (max 4 (Int.fdiv target_minutes 5)) ++ " Akte)...")
        :: (generate_single_pass env prompt genre style characters target_minutes).1 := rfl

/-- Every progress event emitted by the story generator has a non-terminal
status type (`"generating_text"`). -/
theorem gen_events_ok (env : GenEnv) (prompt genre style : String)
    (characters : Option (List String)) (target_minutes : Int) :
    ∀ e ∈ (generate_full_story env prompt genre style characters target_minutes).1,
      (e.1 != "done" && e.1 != "error") = true := by
  intro e he
  unfold generate_full_story at he
  by_cases h12 : target_minutes ≤ 12
  · rw [if_pos h12, generate_single_pass_events] at he
    simp only [List.mem_singleton] at he
    subst he
    rfl
  · rw [if_neg h12, generate_multi_pass_events, generate_single_pass_events] at he
    simp only [List.mem_cons, List.not_mem_nil, or_false] at he
    rcases he with he | he <;> subst he <;> rfl

/-- The `try` block of `_run_pipeline` raises for every environment: either
the text stage raises, or the `on_progress` call at line 257 raises on the
`progress_pct` assignment. At the raise point the reached-stage flags still
have their initial values and all status writes so far are `"generating"`. -/
theorem try_block_err (env : PipelineEnv) (a : PipelineArgs) (st : RunState) :
    ∃ e st', try_block env a st = (st', some e) ∧
      st'.ttsInvoked = st.ttsInvoked ∧
      st'.mergeInvoked = st.mergeInvoked ∧
      st'.imageInvoked = st.imageInvoked ∧
      st'.finalizeReached = st.finalizeReached ∧
      ∃ k, st'.statusWrites = st.statusWrites ++ List.replicate k "generating" := by
  unfold try_block
  have hev := apply_events_spec
    (generate_full_story env.gen a.prompt a.genre a.style a.characters a.target_minutes).1 st
    (gen_events_ok env.gen a.prompt a.genre a.style a.characters a.target_minutes)
  obtain ⟨he0, hw0, ht0, hm0, hi0, hf0⟩ := hev
  rw [pstep_eq_of_none _ _ he0]
  set st1 := (apply_events st
    (generate_full_story env.gen a.prompt a.genre a.style a.characters a.target_minutes).1).1 with hst1
  cases hres : (generate_full_story env.gen a.prompt a.genre a.style a.characters a.target_minutes).2 with
  | error e =>
      refine ⟨e, st1, rfl, ht0, hm0, hi0, hf0, ?_⟩
      exact ⟨_, hw0⟩
  | ok sd =>
      simp only [trySet_title, trySet_description, pstep_ok]
      rw [on_progress_some_eq _ _ _ _ (by rfl)]
      rw [pstep_err]
      refine ⟨noFieldMsg "progress_pct", _, rfl, by simpa using ht0, by simpa using hm0,
        by simpa using hi0, by simpa using hf0, ?_⟩
      refine ⟨(generate_full_story env.gen a.prompt a.genre a.style a.characters a.target_minutes).1.length + 1, ?_⟩
      show st1.statusWrites ++ ["generating"] = _
      rw [hw0, List.append_assoc, ← List.replicate_succ' _ _]

/-- Every pipeline run ends with the `except` handler: no exception escapes,
the record's status is `"error"`, the TTS / merge / image stages and the
finalize block are never reached, and the status-write trace is a block of
`"generating"` writes followed by one final `"error"` write. -/
theorem run_pipeline_spec (env : PipelineEnv) (a : PipelineArgs) (now : Nat) :
    (run_pipeline env a now).2 = none ∧
    (run_pipeline env a now).1.meta.status = "error" ∧
    (run_pipeline env a now).1.ttsInvoked = false ∧
    (run_pipeline env a now).1.mergeInvoked = false ∧
    (run_pipeline env a now).1.imageInvoked = false ∧
    (run_pipeline env a now).1.finalizeReached = false ∧
    ∃ k, (run_pipeline env a now).1.statusWrites
      = List.replicate k "generating" ++ ["error"] := by
  unfold run_pipeline
  obtain ⟨e, st', heq, ht, hm, hi, hf, k, hw⟩ := try_block_err env a (init_state a now)
  rw [heq]
  simp only [trySet_status, trySet_progress, pstep_ok, writeStatus]
  refine ⟨trivial, trivial, by simpa [init_state] using ht, by simpa [init_state] using hm,
    by simpa [init_state] using hi, by simpa [init_state] using hf, k + 1, ?_⟩
  show st'.statusWrites ++ ["error"] = _
  rw [hw]
  simp [init_state, List.replicate_succ]

theorem not_done_writes (k : Nat) :
    "done" ∉ List.replicate k "generating" ++ ["error"] := by
  intro h
  rcases List.mem_append.mp h with h | h
  · exact absurd (List.eq_of_mem_replicate h) (by decide)
  · simp only [List.mem_singleton] at h
    exact absurd h (by decide)

/-- Claim C1 (code bug): the finalize step never completes. `StoryMeta`
(models.py 54-69) declares neither `word_count` nor `progress_pct`, so the
assignments main.py makes to them raise `ValueError`; in fact every run
aborts at the first percentage-carrying progress update (line 257), before
the finalize block (lines 309-322) is even reached. For every environment
the record ends with status `"error"`, the finalize block is unreachable,
and no store state with status `"done"` is ever written. -/
theorem finalize_never_completes (env : PipelineEnv) (a : PipelineArgs) (now : Nat) :
    (run_pipeline env a now).1.meta.status = "error" ∧
    (run_pipeline env a now).1.finalizeReached = false ∧
    "done" ∉ (run_pipeline env a now).1.statusWrites := by
  obtain ⟨-, h2, -, -, -, h6, k, hw⟩ := run_pipeline_spec env a now
  refine ⟨h2, h6, ?_⟩
  rw [hw]
  exact not_done_writes k

/-- Claim C2 (code bug): persisting a percentage-carrying progress update
always fails (`on_progress` raises `ValueError` on the `progress_pct`
assignment, since `StoryMeta` declares no such field), and that failure
aborts the run: the next stage (TTS) is never reached and the run's final
status is `"error"` — for every environment, in particular when the text
stage succeeded. -/
theorem progress_persist_failure_aborts (st : RunState) (t m : String) (p : Int)
    (env : PipelineEnv) (a : PipelineArgs) (now : Nat) :
    (on_progress st t m (some p)).2 = some (noFieldMsg "progress_pct") ∧
    (run_pipeline env a now).1.ttsInvoked = false ∧
    (run_pipeline env a now).1.meta.status = "error" := by
  obtain ⟨-, h2, h3, -⟩ := run_pipeline_spec env a now
  refine ⟨?_, h3, h2⟩
  unfold on_progress
  simp only [trySet_status, trySet_progress, trySet_progress_pct, pstep_ok]

/-- Claim C3: in every run's status-write trace, every write before the last
one is `"generating"` — so once a terminal status (`"done"` or `"error"`)
has been written for the run's record, no later orchestrator update changes
the record's status. -/
theorem status_terminal_only_last (env : PipelineEnv) (a : PipelineArgs) (now : Nat) :
    ∀ w ∈ (run_pipeline env a now).1.statusWrites.dropLast, w = "generating" := by
  obtain ⟨-, -, -, -, -, -, k, hw⟩ := run_pipeline_spec env a now
  rw [hw]
  intro w hwmem
  rw [List.dropLast_concat] at hwmem
  exact List.eq_of_mem_replicate hwmem

/-- Witness for C3 at a concrete run: the first status write of the
end-to-end scenario run is a non-final write and equals `"generating"`. -/
theorem status_terminal_only_last_witness :
    "generating" ∈ (run_pipeline samplePipelineEnv sampleArgs 0).1.statusWrites.dropLast ∧
    "generating" = "generating" :=
  ⟨by decide, status_terminal_only_last samplePipelineEnv sampleArgs 0 "generating" (by decide)⟩

/-- Claim C5 (code bug): an image-backend failure by itself leaves
`image_url` unset (`image_url_of` on a raised call is `none`), but the run
never finalizes with status `"done"`: for every environment the run aborts
before the image stage is reached (`imageInvoked` stays false) and ends with
status `"error"`. -/
theorem image_stage_never_reached (env : PipelineEnv) (a : PipelineArgs) (now : Nat)
    (e base sid : String) :
    image_url_of (Except.error e) base sid = none ∧
    (run_pipeline env a now).1.imageInvoked = false ∧
    (run_pipeline env a now).1.meta.status = "error" := by
  obtain ⟨-, h2, -, -, h5, -, -⟩ := run_pipeline_spec env a now
  exact ⟨rfl, h5, h2⟩

/-- Witness for C10 at a concrete environment (malformed response, so the
fallback payload is returned): one chapter, one TTS chunk. -/
theorem generated_story_single_chapter_witness :
    (fallbackPayload (cleanResponse "x")).chapters.length = 1 ∧
    (chapters_to_audio (fallbackPayload (cleanResponse "x")).chapters).length = 1 :=
  generated_story_single_chapter sampleGenEnv "p" "g" "s" none 5
    (fallbackPayload (cleanResponse "x")) rfl

end Bedtime
